import Mathlib

/-!
Verification of the dialog-builder library (`src/dialog.rs`).

The library is a configuration builder: `FileDialog` accumulates a list of
extension filters and an optional starting directory; `AsyncFileDialog`
wraps a `FileDialog`; `MessageDialog` carries text, a severity level and a
button set.  Terminal operations hand the configuration to a per-platform
native backend that is not part of this repository's sources; where a claim
depends on that backend its behaviour is modelled from the specification
(see the doc comments on the corresponding definitions).

Rust `PathBuf`/`&Path` values are modelled as `String`; `&str -> String`
conversions (`to_string`, `into`) are the identity in this model.
-/

namespace Rfd

/-- Paths (`PathBuf`) are modelled as plain strings. -/
abbrev PathBuf := String

/-- `struct Filter { name: String, extensions: Vec<String> }`. -/
structure Filter where
  name : String
  extensions : List String
deriving DecidableEq

/-- `struct FileDialog { filters: Vec<Filter>, starting_directory: Option<PathBuf> }`. -/
structure FileDialog where
  filters : List Filter
  starting_directory : Option PathBuf
deriving DecidableEq

/-- `FileDialog::new` returns `Default::default()`: empty filter list, no directory. -/
def FileDialog.new : FileDialog :=
  { filters := [], starting_directory := none }

/-- `FileDialog::add_filter` pushes `Filter { name: name.into(), extensions:
extensions.iter().map(|e| e.to_string()).collect() }` onto `self.filters`
(the `&str -> String` conversions are the identity here) and returns `self`. -/
def FileDialog.add_filter (d : FileDialog) (name : String) (extensions : List String) :
    FileDialog :=
  { d with filters := d.filters ++ [{ name := name, extensions := extensions }] }

/-- `FileDialog::set_directory` sets `self.starting_directory = Some(path.as_ref().into())`
and returns `self`. -/
def FileDialog.set_directory (d : FileDialog) (path : PathBuf) : FileDialog :=
  { d with starting_directory := some path }

/-- `struct AsyncFileDialog { file_dialog: FileDialog }`. -/
structure AsyncFileDialog where
  file_dialog : FileDialog
deriving DecidableEq

/-- `AsyncFileDialog::new` returns `Default::default()`. -/
def AsyncFileDialog.new : AsyncFileDialog :=
  { file_dialog := FileDialog.new }

/-- `AsyncFileDialog::add_filter` delegates:
`self.file_dialog = self.file_dialog.add_filter(name, extensions)`. -/
def AsyncFileDialog.add_filter (d : AsyncFileDialog) (name : String)
    (extensions : List String) : AsyncFileDialog :=
  { d with file_dialog := d.file_dialog.add_filter name extensions }

/-- `AsyncFileDialog::set_directory` delegates:
`self.file_dialog = self.file_dialog.set_directory(path)`. -/
def AsyncFileDialog.set_directory (d : AsyncFileDialog) (path : PathBuf) :
    AsyncFileDialog :=
  { d with file_dialog := d.file_dialog.set_directory path }

/-- One configuration call of the shared builder surface
(`add_filter` or `set_directory`). -/
inductive BuilderCall where
  | addFilter (name : String) (extensions : List String)
  | setDirectory (path : PathBuf)

/-- Apply one builder call to a `FileDialog`. -/
def FileDialog.applyCall (d : FileDialog) : BuilderCall → FileDialog
  | .addFilter n e => d.add_filter n e
  | .setDirectory p => d.set_directory p

/-- Apply a sequence of builder calls, left to right, to a `FileDialog`. -/
def FileDialog.applyCalls (d : FileDialog) (cs : List BuilderCall) : FileDialog :=
  cs.foldl FileDialog.applyCall d

/-- Apply one builder call to an `AsyncFileDialog`. -/
def AsyncFileDialog.applyCall (d : AsyncFileDialog) : BuilderCall → AsyncFileDialog
  | .addFilter n e => d.add_filter n e
  | .setDirectory p => d.set_directory p

/-- Apply a sequence of builder calls, left to right, to an `AsyncFileDialog`. -/
def AsyncFileDialog.applyCalls (d : AsyncFileDialog) (cs : List BuilderCall) :
    AsyncFileDialog :=
  cs.foldl AsyncFileDialog.applyCall d

/-- A sequence of `add_filter` calls only, each a (name, extensions) pair,
applied left to right to a `FileDialog`. -/
def FileDialog.applyAddFilters (d : FileDialog) (cs : List (String × List String)) :
    FileDialog :=
  cs.foldl (fun d c => d.add_filter c.1 c.2) d

/-- The same `add_filter`-only sequence applied to an `AsyncFileDialog`. -/
def AsyncFileDialog.applyAddFilters (d : AsyncFileDialog)
    (cs : List (String × List String)) : AsyncFileDialog :=
  cs.foldl (fun d c => d.add_filter c.1 c.2) d

/-- `enum MessageLevel { Info, Warning, Error }`. -/
inductive MessageLevel where
  | Info
  | Warning
  | Error
deriving DecidableEq

/-- `impl Default for MessageLevel` returns `Self::Info`. -/
def MessageLevel.default : MessageLevel := .Info

/-- `enum MessageButtons { Ok, OkCancle, YesNo }` (the source spells the
middle variant `OkCancle`). -/
inductive MessageButtons where
  | Ok
  | OkCancle
  | YesNo
deriving DecidableEq

/-- `impl Default for MessageButtons` returns `Self::Ok`. -/
def MessageButtons.default : MessageButtons := .Ok

/-- `struct MessageDialog { text: String, level: MessageLevel, buttons: MessageButtons }`. -/
structure MessageDialog where
  text : String
  level : MessageLevel
  buttons : MessageButtons
deriving DecidableEq

/-- `MessageDialog::new` returns `Default::default()`: empty text, default
level (`Info`), default buttons (`Ok`). -/
def MessageDialog.new : MessageDialog :=
  { text := "", level := MessageLevel.default, buttons := MessageButtons.default }

/-- `MessageDialog::set_text` sets `self.text = text.into()` and returns `self`. -/
def MessageDialog.set_text (d : MessageDialog) (text : String) : MessageDialog :=
  { d with text := text }

/-- `MessageDialog::show` has the body `MessageDialogImpl::show(self)`: the
whole configuration is handed unchanged to the native layer and nothing is
returned.  The native `MessageDialogImpl` is outside `src/`, so the call is
modelled as the pair (value the native layer receives, value returned to the
caller); the code moves `self` into the native call, so the first component
is `d` itself and the second is the unit value. -/
def MessageDialog.show (d : MessageDialog) : MessageDialog × Unit :=
  (d, ())

/-- The builder calls available on the public `MessageDialog` surface other
than `new` and `show`: the `impl MessageDialog` block declares only
`set_text`, so this is the only constructor of the call type. -/
inductive MessageDialogCall where
  | setText (text : String)

/-- Apply one public builder call to a `MessageDialog`. -/
def MessageDialog.applyCall (d : MessageDialog) : MessageDialogCall → MessageDialog
  | .setText t => d.set_text t

/-- Apply a sequence of public builder calls, left to right. -/
def MessageDialog.applyCalls (d : MessageDialog) (cs : List MessageDialogCall) :
    MessageDialog :=
  cs.foldl MessageDialog.applyCall d

/-- Modelled from the spec: the native dispatch layer behind `pick_file`,
`pick_folder` and `save_file` (`FilePickerDialogImpl::pick_file`,
`crate::backend::pick_folder`, `crate::backend::save_file`) is not under
`src/`.  Per the spec, a single-result native dialog ends in user
cancellation, some native failure (permission denial, dialog-creation
failure, unsupported environment), or a confirmed selection of one path. -/
inductive NativeSingleOutcome where
  | cancelled
  | nativeFailure (reason : String)
  | confirmed (path : PathBuf)

/-- Modelled from the spec: the multi-result native dialog behind
`pick_files` ends in user cancellation, a native failure, or a confirmed
selection of a list of paths (possibly none selected). -/
inductive NativeMultiOutcome where
  | cancelled
  | nativeFailure (reason : String)
  | confirmed (paths : List PathBuf)

/-- Modelled from the spec: the native layer maps a single-result outcome to
the library's return value, collapsing cancellation and every native
failure mode into the absent result and never producing an error value. -/
def dispatchSingle : NativeSingleOutcome → Option PathBuf
  | .cancelled => none
  | .nativeFailure _ => none
  | .confirmed p => some p

/-- Modelled from the spec: the native layer maps a multi-result outcome to
the library's return value; cancellation, native failure and a zero-file
selection are the same observable outcome (absent), and a confirmed
selection yields the selected paths. -/
def dispatchMulti : NativeMultiOutcome → Option (List PathBuf)
  | .cancelled => none
  | .nativeFailure _ => none
  | .confirmed ps => if ps = [] then none else some ps

/-- `FileDialog::pick_file` hands the configuration to
`FilePickerDialogImpl::pick_file` and returns its `Option<PathBuf>`; the
native interaction is the spec-modelled outcome parameter. -/
def FileDialog.pick_file (_d : FileDialog) (o : NativeSingleOutcome) :
    Option PathBuf :=
  dispatchSingle o

/-- `FileDialog::pick_files` hands the configuration to
`FilePickerDialogImpl::pick_files` and returns its `Option<Vec<PathBuf>>`. -/
def FileDialog.pick_files (_d : FileDialog) (o : NativeMultiOutcome) :
    Option (List PathBuf) :=
  dispatchMulti o

/-- `FileDialog::pick_folder` hands the configuration to
`crate::backend::pick_folder` and returns its `Option<PathBuf>`. -/
def FileDialog.pick_folder (_d : FileDialog) (o : NativeSingleOutcome) :
    Option PathBuf :=
  dispatchSingle o

/-- `FileDialog::save_file` hands the configuration to
`crate::backend::save_file` and returns its `Option<PathBuf>`. -/
def FileDialog.save_file (_d : FileDialog) (o : NativeSingleOutcome) :
    Option PathBuf :=
  dispatchSingle o

/-- The four terminal operations of `AsyncFileDialog`. -/
inductive AsyncDialogOp where
  | pickFile
  | pickFiles
  | pickFolder
  | saveFile
deriving DecidableEq

/-- Availability of each `AsyncFileDialog` terminal operation per target,
read off the `cfg` attributes in the source: `pick_folder` and `save_file`
carry `#[cfg(not(target_arch = "wasm32"))]` while `pick_file` and
`pick_files` are unconditional. -/
def asyncOpAvailable (wasm32 : Bool) : AsyncDialogOp → Bool
  | .pickFile => true
  | .pickFiles => true
  | .pickFolder => !wasm32
  | .saveFile => !wasm32

theorem applyAddFilters_filters (cs : List (String × List String)) :
    ∀ d : FileDialog, (d.applyAddFilters cs).filters
      = d.filters ++ cs.map (fun c => { name := c.1, extensions := c.2 }) := by
  induction cs with
  | nil => intro d; simp [FileDialog.applyAddFilters]
  | cons c cs ih =>
      intro d
      calc (FileDialog.applyAddFilters d (c :: cs)).filters
          = (FileDialog.applyAddFilters (d.add_filter c.1 c.2) cs).filters := rfl
        _ = (d.add_filter c.1 c.2).filters
              ++ cs.map (fun c => { name := c.1, extensions := c.2 }) := ih _
        _ = d.filters ++ (c :: cs).map (fun c => { name := c.1, extensions := c.2 }) := by
              simp [FileDialog.add_filter]

theorem asyncApplyAddFilters_file_dialog (cs : List (String × List String)) :
    ∀ a : AsyncFileDialog,
      (a.applyAddFilters cs).file_dialog = a.file_dialog.applyAddFilters cs := by
  induction cs with
  | nil => intro a; rfl
  | cons c cs ih => intro a; exact ih _

theorem asyncApplyCalls_file_dialog (cs : List BuilderCall) :
    ∀ a : AsyncFileDialog,
      (a.applyCalls cs).file_dialog = a.file_dialog.applyCalls cs := by
  induction cs with
  | nil => intro a; rfl
  | cons c cs ih =>
      intro a
      cases c with
      | addFilter n e => exact ih _
      | setDirectory p => exact ih _

theorem applyMsgCalls_level_buttons (cs : List MessageDialogCall) :
    ∀ d : MessageDialog,
      (d.applyCalls cs).level = d.level ∧ (d.applyCalls cs).buttons = d.buttons := by
  induction cs with
  | nil => intro d; exact ⟨rfl, rfl⟩
  | cons c cs ih =>
      intro d
      cases c with
      | setText t => exact ih _

/-- Claim C1: for every sequence of `add_filter` calls on a `FileDialog` (or
an `AsyncFileDialog`), the resulting configuration's filter list is exactly
the calls' (name, extensions) pairs in call order; in particular the first
filter added is the first element of the list. -/
theorem add_filter_sequence_preserves_insertion_order
    (cs : List (String × List String)) (n : String) (e : List String)
    (rest : List (String × List String)) :
    (FileDialog.new.applyAddFilters cs).filters
      = cs.map (fun c => { name := c.1, extensions := c.2 }) ∧
    (AsyncFileDialog.new.applyAddFilters cs).file_dialog.filters
      = cs.map (fun c => { name := c.1, extensions := c.2 }) ∧
    ((FileDialog.new.applyAddFilters ((n, e) :: rest)).filters).head?
      = some { name := n, extensions := e } := by
  refine ⟨?_, ?_, ?_⟩
  · simpa [FileDialog.new] using applyAddFilters_filters cs FileDialog.new
  · rw [asyncApplyAddFilters_file_dialog]
    simpa [AsyncFileDialog.new, FileDialog.new] using
      applyAddFilters_filters cs FileDialog.new
  · rw [applyAddFilters_filters]
    simp [FileDialog.new]

/-- Claim C2: calling `set_directory(p1)` then `set_directory(p2)` on any
configuration leaves the starting directory present and equal to `p2`; the
earlier value is discarded and the repeated call is not an error. -/
theorem set_directory_last_write_wins (d : FileDialog) (p1 p2 : PathBuf) :
    ((d.set_directory p1).set_directory p2).starting_directory = some p2 := rfl

/-- Claim C3: each builder method applies exactly one piece of configuration
and changes nothing else: `add_filter` appends exactly one filter and leaves
the starting directory unchanged, and `set_directory` sets the starting
directory and leaves the filter list unchanged. -/
theorem builder_methods_frame_effects (d : FileDialog) (n : String)
    (e : List String) (p : PathBuf) :
    (d.add_filter n e).filters = d.filters ++ [{ name := n, extensions := e }] ∧
    (d.add_filter n e).starting_directory = d.starting_directory ∧
    (d.set_directory p).starting_directory = some p ∧
    (d.set_directory p).filters = d.filters :=
  ⟨rfl, rfl, rfl, rfl⟩

/-- Claim C4: for every sequence of `add_filter` and `set_directory` calls,
applying it to a fresh `AsyncFileDialog` produces exactly the underlying
`FileDialog` configuration that applying the same sequence to a fresh
`FileDialog` produces. -/
theorem async_builder_matches_sync_builder (cs : List BuilderCall) :
    (AsyncFileDialog.new.applyCalls cs).file_dialog = FileDialog.new.applyCalls cs :=
  asyncApplyCalls_file_dialog cs AsyncFileDialog.new

/-- Claim C5: every `pick_file`, `pick_files`, `pick_folder` and `save_file`
operation has exactly two possible outcomes (result present or result
absent); user cancellation and every native failure are signalled by the
absent result, never by a distinct error value. -/
theorem terminal_operations_have_two_outcomes (d : FileDialog)
    (o : NativeSingleOutcome) (m : NativeMultiOutcome) (r : String) :
    (d.pick_file o = none ∨ ∃ p, d.pick_file o = some p) ∧
    (d.pick_folder o = none ∨ ∃ p, d.pick_folder o = some p) ∧
    (d.save_file o = none ∨ ∃ p, d.save_file o = some p) ∧
    (d.pick_files m = none ∨ ∃ ps, d.pick_files m = some ps) ∧
    d.pick_file .cancelled = none ∧
    d.pick_file (.nativeFailure r) = none ∧
    d.pick_folder .cancelled = none ∧
    d.pick_folder (.nativeFailure r) = none ∧
    d.save_file .cancelled = none ∧
    d.save_file (.nativeFailure r) = none ∧
    d.pick_files .cancelled = none ∧
    d.pick_files (.nativeFailure r) = none := by
  have hsingle : dispatchSingle o = none ∨ ∃ p, dispatchSingle o = some p := by
    cases o with
    | cancelled => exact Or.inl rfl
    | nativeFailure s => exact Or.inl rfl
    | confirmed p => exact Or.inr ⟨p, rfl⟩
  have hmulti : dispatchMulti m = none ∨ ∃ ps, dispatchMulti m = some ps := by
    cases m with
    | cancelled => exact Or.inl rfl
    | nativeFailure s => exact Or.inl rfl
    | confirmed ps =>
        by_cases h : ps = []
        · exact Or.inl (by simp [dispatchMulti, h])
        · exact Or.inr ⟨ps, by simp [dispatchMulti, h]⟩
  exact ⟨hsingle, hsingle, hsingle, hmulti, rfl, rfl, rfl, rfl, rfl, rfl, rfl, rfl⟩

/-- Claim C6: `pick_files` never returns a present-but-empty list: for every
dispatch outcome the result is absent or a present non-empty list;
cancellation and a zero-file selection yield the absent result, and a
confirmed selection of `q :: qs` (in particular `[p1, p2]`) is returned as
is. -/
theorem pick_files_never_present_empty (d : FileDialog)
    (m : NativeMultiOutcome) (p1 p2 q : PathBuf) (qs : List PathBuf) :
    (d.pick_files m = none ∨ ∃ x xs, d.pick_files m = some (x :: xs)) ∧
    d.pick_files .cancelled = none ∧
    d.pick_files (.confirmed []) = none ∧
    d.pick_files (.confirmed (q :: qs)) = some (q :: qs) ∧
    d.pick_files (.confirmed [p1, p2]) = some [p1, p2] := by
  refine ⟨?_, rfl, ?_, ?_, ?_⟩
  · cases m with
    | cancelled => exact Or.inl rfl
    | nativeFailure s => exact Or.inl rfl
    | confirmed ps =>
        cases ps with
        | nil => exact Or.inl (by simp [FileDialog.pick_files, dispatchMulti])
        | cons x xs =>
            exact Or.inr ⟨x, xs, by simp [FileDialog.pick_files, dispatchMulti]⟩
  · simp [FileDialog.pick_files, dispatchMulti]
  · simp [FileDialog.pick_files, dispatchMulti]
  · simp [FileDialog.pick_files, dispatchMulti]

/-- Claim C7: `MessageDialog::show` hands the configured text, level and
buttons to the native layer exactly as configured and returns no value; for
text `"Delete?"`, level `Error`, buttons `YesNo` the native layer receives
exactly those three values. -/
theorem message_show_passes_configuration_unchanged (d : MessageDialog) :
    (d.show).1 = d ∧ (d.show).2 = () ∧
    ((MessageDialog.mk "Delete?" .Error .YesNo).show).1.text = "Delete?" ∧
    ((MessageDialog.mk "Delete?" .Error .YesNo).show).1.level = .Error ∧
    ((MessageDialog.mk "Delete?" .Error .YesNo).show).1.buttons = .YesNo :=
  ⟨rfl, rfl, rfl, rfl, rfl⟩

/-- Claim C8: a newly constructed `MessageDialog` has empty text, level
`Info` and buttons `Ok`; the level and button types are closed three-element
enumerations (the source spells the middle button variant `OkCancle`) whose
elements are pairwise distinct, so exactly one of each is active at a
time. -/
theorem message_dialog_defaults_and_closed_enums :
    MessageDialog.new.text = "" ∧
    MessageDialog.new.level = .Info ∧
    MessageDialog.new.buttons = .Ok ∧
    (∀ l : MessageLevel, l = .Info ∨ l = .Warning ∨ l = .Error) ∧
    (∀ b : MessageButtons, b = .Ok ∨ b = .OkCancle ∨ b = .YesNo) ∧
    (MessageLevel.Info == MessageLevel.Warning) = false ∧
    (MessageLevel.Info == MessageLevel.Error) = false ∧
    (MessageLevel.Warning == MessageLevel.Error) = false ∧
    (MessageButtons.Ok == MessageButtons.OkCancle) = false ∧
    (MessageButtons.Ok == MessageButtons.YesNo) = false ∧
    (MessageButtons.OkCancle == MessageButtons.YesNo) = false := by
  refine ⟨rfl, rfl, rfl, ?_, ?_, rfl, rfl, rfl, rfl, rfl, rfl⟩
  · intro l
    cases l with
    | Info => exact Or.inl rfl
    | Warning => exact Or.inr (Or.inl rfl)
    | Error => exact Or.inr (Or.inr rfl)
  · intro b
    cases b with
    | Ok => exact Or.inl rfl
    | OkCancle => exact Or.inr (Or.inl rfl)
    | YesNo => exact Or.inr (Or.inr rfl)

/-- Claim C9: on the wasm32 target the asynchronous builder's `pick_folder`
and `save_file` do not exist (compile-time unavailability, read off the
`cfg` attributes), while `pick_file` and `pick_files` remain available; on
non-wasm32 targets all four exist. -/
theorem wasm32_compile_time_availability :
    asyncOpAvailable true .pickFolder = false ∧
    asyncOpAvailable true .saveFile = false ∧
    asyncOpAvailable true .pickFile = true ∧
    asyncOpAvailable true .pickFiles = true ∧
    asyncOpAvailable false .pickFolder = true ∧
    asyncOpAvailable false .saveFile = true :=
  ⟨rfl, rfl, rfl, rfl, rfl, rfl⟩

/-- Claim C10: the public `MessageDialog` builder surface exposes only
`set_text`, so every `MessageDialog` reachable from `new` through any
sequence of public builder calls still has level `Info` and buttons `Ok`. -/
theorem message_dialog_level_buttons_fixed (cs : List MessageDialogCall) :
    (MessageDialog.new.applyCalls cs).level = .Info ∧
    (MessageDialog.new.applyCalls cs).buttons = .Ok :=
  applyMsgCalls_level_buttons cs MessageDialog.new

end Rfd
